import Mathlib

/-!
Verification development for the MeshNetwork replication plane
(`backend/services/replication_engine.py`, `backend/services/query_router.py`,
`backend/app.py`, `backend/routes/posts.py`, `backend/routes/users.py`,
`backend/config.py`, `backend/services/database.py`).

The Python code is shallowly embedded: documents are open maps from field
names to BSON-like values, MongoDB query matching is modelled with its
documented semantics (type bracketing for comparison operators, literal
comparison for `$ne` values, array-membership for equality matches), Python
truthiness is made explicit, wall-clock instants are integers (seconds), and
the ISO-8601 parser `datetime.fromisoformat` is passed in as an abstract
`String → Option Int` parameter (the code only depends on its output).
-/

namespace MeshNetwork

/-- BSON-like values as they occur in the repository's documents: strings,
native UTC instants (`datetime` / BSON Date, measured in integer seconds),
integers, booleans, arrays of strings (the only arrays the replication plane
stores, e.g. `synced_to`), one-key operator-shaped literal documents such as
`{"$all": [...]}` (which the push query embeds as a literal comparison
value), and null/None. -/
inductive Bson where
  | str (s : String)
  | dt (t : Int)
  | intv (n : Int)
  | boolv (b : Bool)
  | strArr (a : List String)
  | opDoc (k : String) (a : List String)
  | geo (ltype : String) (coordinates : List ℚ)
  | null
deriving DecidableEq, Repr

/-- A document is an open map: an association list from field names to
values, first binding wins (Python dict lookup). -/
def Doc := List (String × Bson)
deriving DecidableEq, Repr

instance : Append Doc := ⟨fun a b => List.append a b⟩

/-- Lookup `d.get(k)`: Python `dict.get`, `None` when absent. -/
def Doc.get (d : Doc) (k : String) : Option Bson :=
  match d.find? (fun p => p.1 == k) with
  | some p => some p.2
  | none => none

/-- Overwrite (or add) one field of a document, as MongoDB `$set` of a
single field does. -/
def Doc.set (d : Doc) (k : String) (v : Bson) : Doc :=
  match d with
  | [] => [(k, v)]
  | (k0, v0) :: rest => if k0 == k then (k, v) :: rest else (k0, v0) :: Doc.set rest k v

/-- MongoDB `update_one(query, {'$set': upd})`: every field of `upd` is
written over the matched document; fields not mentioned in `upd` survive. -/
def Doc.setMany (d : Doc) (upd : Doc) : Doc :=
  upd.foldl (fun acc p => Doc.set acc p.1 p.2) d

/-- Python truthiness of an (optional) field value: `None`, empty strings,
zero and empty lists are falsy; datetimes and operator documents are truthy. -/
def pyTruthy : Option Bson → Bool
  | none => false
  | some (.str s) => s ≠ ""
  | some (.dt _) => true
  | some (.intv n) => n ≠ 0
  | some (.boolv b) => b
  | some (.strArr a) => a ≠ []
  | some (.opDoc _ _) => true
  | some (.geo _ _) => true
  | some .null => false

/-- MongoDB equality match of a stored field value against a query value:
equal values match, and an array field also matches a value equal to one of
its elements. -/
def mongoValEq (fieldVal target : Bson) : Bool :=
  fieldVal == target ||
    (match fieldVal, target with
     | .strArr a, .str s => a.contains s
     | _, _ => false)

/-- MongoDB `$gt` comparison on a stored field value. Query comparison
operators use type bracketing: values of different BSON types (in
particular a Date field against a String bound) never match. -/
def mongoGt : Bson → Bson → Bool
  | .dt a, .dt b => b < a
  | .str a, .str b => b < a
  | .intv a, .intv b => b < a
  | _, _ => false

/-- The id-key convention of the source: the lookup key for collection `c`
is `c[:-1] + "_id"` (`posts → post_id`, `users → user_id`). -/
def idKey (collection : String) : String := collection.dropRight 1 ++ "_id"

/-- Whether document `d` matches the one-field equality query `{k: v}`. -/
def docMatches (d : Doc) (k : String) (v : Bson) : Bool :=
  match d.get k with
  | some fv => mongoValEq fv v
  | none => false

/-- Store `find_one(coll, {k: v})`: first matching document in natural
(insertion) order. -/
def findOneBy (coll : List Doc) (k : String) (v : Bson) : Option Doc :=
  coll.find? (fun d => docMatches d k v)

/-- Store `update_one(coll, {k: v}, upd)` with `use_operators = False`:
`$set`-merge `upd` over the first matching document. -/
def updateOneBy (coll : List Doc) (k : String) (v : Bson) (upd : Doc) : List Doc :=
  match coll with
  | [] => []
  | d :: rest =>
      if docMatches d k v then d.setMany upd :: rest
      else d :: updateOneBy rest k v upd

/-- Store `delete_one(coll, {k: v})`: remove the first matching document. -/
def deleteOneBy (coll : List Doc) (k : String) (v : Bson) : List Doc :=
  match coll with
  | [] => []
  | d :: rest => if docMatches d k v then rest else d :: deleteOneBy rest k v

/-! ## Conflict resolution (`ReplicationEngine._resolve_conflict`) -/

/-- Conflict outcome recorded through `_record_conflict`. -/
inductive Outcome where
  | remote_wins
  | local_wins
  | unresolved
deriving DecidableEq, Repr

/-- Result of a conflict resolution that did not raise: the (possibly
rewritten) local document and the recorded outcome. -/
structure ResolveOk where
  newLocal : Doc
  outcome : Outcome
deriving DecidableEq, Repr

/-- Python `d.get('last_modified') or d.get('timestamp')`: Python `or` returns the
second operand whenever the first is falsy. -/
def pyOrTime (d : Doc) : Option Bson :=
  let lm := d.get "last_modified"
  if pyTruthy lm then lm else d.get "timestamp"

/-- Normalization `if v and isinstance(v, str): v = datetime.fromisoformat(v.replace('Z',
'+00:00'))`. A parse failure raises (`.error`), which the enclosing
`try/except` of `_resolve_conflict` swallows. -/
def normTime (parse : String → Option Int) (v : Option Bson) : Except Unit (Option Bson) :=
  match v with
  | some (.str s) =>
      if s ≠ "" then
        match parse s with
        | some t => .ok (some (.dt t))
        | none => .error ()
      else .ok (some (.str s))
  | w => .ok w

/-- Python `a > b` on two timestamp-ish values; comparing incompatible
types raises `TypeError` (`.error`). -/
def pyGtTime : Bson → Bson → Except Unit Bool
  | .dt a, .dt b => .ok (b < a)
  | .intv a, .intv b => .ok (b < a)
  | .str a, .str b => .ok (b < a)
  | _, _ => .error ()

/-- Python `isinstance(d.get(k), str)`. -/
def isStrField (d : Doc) (k : String) : Bool :=
  match d.get k with
  | some (.str _) => true
  | _ => false

/-- The `local_wins` fixup branch of `_resolve_conflict`: when the local
document holds string-typed `timestamp`/`last_modified` fields, build
`update_fields` (the `timestamp` field receives the *remote* instant, the
`last_modified` field its own re-parsed value) and `$set` them in place. -/
def localWinsFixup (parse : String → Option Int) (local_data : Doc) (rv : Bson) :
    Except Unit Doc := do
  let f1 : Doc ←
    if isStrField local_data "timestamp" then
      match rv with
      | .dt t => .ok [("timestamp", Bson.dt t)]
      | _ => .error ()
    else .ok []
  let f2 : Doc ←
    if isStrField local_data "last_modified" then
      match local_data.get "last_modified" with
      | some (.str s) =>
          match parse s with
          | some t => .ok [("last_modified", Bson.dt t)]
          | none => .error ()
      | _ => .error ()
    else .ok []
  let fields := f1 ++ f2
  if fields.isEmpty then .ok local_data else .ok (local_data.setMany fields)

/-- The method `ReplicationEngine._resolve_conflict(collection, document_id,
remote_data, local_data)`, expressed on the local document it rewrites.
`.error` is the swallowed exception path: no store write and no conflict
recorded. The store writes issued by the source (`update_one` with
`remote_data`, or with `update_fields`) are `$set`-merges over the document
matched by `{<collection[:-1]>_id: document_id}`, i.e. over `local_data`. -/
def resolveConflict (parse : String → Option Int) (remote_data local_data : Doc) :
    Except Unit ResolveOk := do
  let remoteT ← normTime parse (pyOrTime remote_data)
  let localT ← normTime parse (pyOrTime local_data)
  match remoteT, localT with
  | some rv, some lv =>
      if pyTruthy (some rv) && pyTruthy (some lv) then do
        let gt ← pyGtTime rv lv
        if gt then
          .ok ⟨local_data.setMany remote_data, .remote_wins⟩
        else
          if isStrField local_data "timestamp" || isStrField local_data "last_modified" then do
            let fixed ← localWinsFixup parse local_data rv
            .ok ⟨fixed, .local_wins⟩
          else
            .ok ⟨local_data, .local_wins⟩
      else
        .ok ⟨local_data, .unresolved⟩
  | _, _ => .ok ⟨local_data, .unresolved⟩

/-! ## Applying pulled operations (`ReplicationEngine._apply_operations`) -/

/-- An incoming replication entry as read by `_apply_operations`
(`op_type`, `collection`, `doc_id`, `data`). -/
structure OpIn where
  operation_type : String
  collection : String
  document_id : String
  data : Doc
deriving DecidableEq, Repr

/-- Helper `_deserialize_timestamps`: for each of the four timestamp fields, a
string value is re-parsed to a native instant; a parse failure logs a
warning and keeps the string. -/
def deserializeTimestamps (parse : String → Option Int) (d : Doc) : Doc :=
  ["timestamp", "last_modified", "created_at", "updated_at"].foldl
    (fun acc f =>
      match acc.get f with
      | some (.str s) =>
          match parse s with
          | some t => acc.set f (.dt t)
          | none => acc
      | _ => acc) d

/-- The conflict-resolution arm of `_apply_operations`: resolve the
incoming data against the existing document and write the resolver's
result over the first match; a swallowed resolver exception leaves the
collection unchanged and records nothing. -/
def resolveApply (parse : String → Option Int) (coll : List Doc) (key : String)
    (did : Bson) (data ex : Doc) : List Doc × Option Outcome :=
  match resolveConflict parse data ex with
  | .ok r => (updateOneBy coll key did r.newLocal, some r.outcome)
  | .error _ => (coll, none)

/-- One iteration of `_apply_operations` on the contents of
`op.collection`: dispatch on the operation type, inserting, resolving or
deleting by the derived id key. Returns the new collection contents and the
conflict outcome recorded, if any (a swallowed resolver exception records
nothing and writes nothing). -/
def applyOperation (parse : String → Option Int) (op : OpIn) (coll : List Doc) :
    List Doc × Option Outcome :=
  let data := deserializeTimestamps parse op.data
  let key := idKey op.collection
  let did := Bson.str op.document_id
  if op.operation_type == "insert" then
    match findOneBy coll key did with
    | none => (coll ++ [data], none)
    | some existing =>
        match resolveConflict parse data existing with
        | .ok r => (updateOneBy coll key did r.newLocal, some r.outcome)
        | .error _ => (coll, none)
  else if op.operation_type == "update" then
    match findOneBy coll key did with
    | some existing =>
        match resolveConflict parse data existing with
        | .ok r => (updateOneBy coll key did r.newLocal, some r.outcome)
        | .error _ => (coll, none)
    | none => (coll ++ [data], none)
  else if op.operation_type == "delete" then
    (deleteOneBy coll key did, none)
  else
    (coll, none)

/-! ## Liveness tracker and island-mode FSM
(`_update_region_status`, `_check_island_mode`, `get_island_mode_status`) -/

/-- One per-peer liveness record of `ReplicationEngine.region_status`.
Instants are integer seconds of UTC wall-clock time. -/
structure RegionStatus where
  connected : Bool
  last_success : Option Int
  last_attempt : Option Int
  consecutive_failures : Nat
deriving DecidableEq, Repr

/-- The in-memory island-mode state of the engine: the per-peer status map
(association list keyed by peer URL) plus the island flag and the isolation
start instant. `island_mode_threshold` is the constant 10 from `__init__`. -/
structure EngineState where
  region_status : List (String × RegionStatus)
  island_mode_active : Bool
  island_mode_start_time : Option Int
deriving DecidableEq, Repr

/-- Engine state as constructed by `ReplicationEngine.__init__`. -/
def EngineState.init : EngineState :=
  { region_status := [], island_mode_active := false, island_mode_start_time := none }

def islandModeThreshold : Int := 10

/-- Lookup `self.region_status.get(url)`. -/
def statusLookup (s : EngineState) (url : String) : Option RegionStatus :=
  match s.region_status.find? (fun p => p.1 == url) with
  | some p => some p.2
  | none => none

/-- Assignment `self.region_status[url] = r` on the association list. -/
def setStatus (l : List (String × RegionStatus)) (url : String) (r : RegionStatus) :
    List (String × RegionStatus) :=
  match l with
  | [] => [(url, r)]
  | (u, r0) :: rest => if u == url then (url, r) :: rest else (u, r0) :: setStatus rest url r

/-- Python `sum(1 for s in self.region_status.values() if s.get('connected', False))`. -/
def connectedCount (l : List (String × RegionStatus)) : Nat :=
  (l.filter (fun p => p.2.connected)).length

/-- The method `ReplicationEngine._check_island_mode`, with `datetime.now` passed in as
`now`. Only the state-mutating statements are modelled; logging is dropped. -/
def checkIslandMode (remotes : List String) (now : Int) (s : EngineState) : EngineState :=
  if remotes.length == 0 then
    if s.island_mode_active then
      { s with island_mode_active := false, island_mode_start_time := none }
    else s
  else if connectedCount s.region_status == 0 then
    if !s.island_mode_active then
      match s.island_mode_start_time with
      | none => { s with island_mode_start_time := some now }
      | some start =>
          if islandModeThreshold ≤ now - start then
            { s with island_mode_active := true }
          else s
    else s
  else
    if s.island_mode_active || s.island_mode_start_time.isSome then
      { s with island_mode_active := false, island_mode_start_time := none }
    else s

/-- The method `ReplicationEngine._update_region_status(region_url, is_connected)`:
upsert the peer's record, then run the island-mode check. -/
def updateRegionStatus (remotes : List String) (s : EngineState) (url : String)
    (isConnected : Bool) (now : Int) : EngineState :=
  let rs :=
    match statusLookup s url with
    | none =>
        setStatus s.region_status url
          { connected := isConnected
            last_success := if isConnected then some now else none
            last_attempt := some now
            consecutive_failures := if isConnected then 0 else 1 }
    | some st =>
        setStatus s.region_status url
          { connected := isConnected
            last_success := if isConnected then some now else st.last_success
            last_attempt := some now
            consecutive_failures := if isConnected then 0 else st.consecutive_failures + 1 }
  checkIslandMode remotes now { s with region_status := rs }

/-- The fields of the `get_island_mode_status()` snapshot that the claims
mention (the serialized per-peer details and the human-readable duration are
functions of the same state). -/
structure IslandModeStatus where
  is_island : Bool
  is_suspect : Bool
  isolation_start : Option Int
  connected_regions : Nat
  total_regions : Nat
deriving DecidableEq, Repr

/-- The method `ReplicationEngine.get_island_mode_status()`. -/
def getIslandModeStatus (remotes : List String) (s : EngineState) : IslandModeStatus :=
  { is_island := s.island_mode_active
    is_suspect := connectedCount s.region_status == 0 && remotes.length > 0 &&
      s.island_mode_start_time.isSome && !s.island_mode_active
    isolation_start := s.island_mode_start_time
    connected_regions := connectedCount s.region_status
    total_regions := remotes.length }

/-- States of the liveness tracker / island-mode machine reachable from the
initial engine state by `_update_region_status` transitions on configured
peers (each transition carries its wall-clock instant). -/
inductive Reachable (remotes : List String) : EngineState → Prop where
  | init : Reachable remotes EngineState.init
  | step (s : EngineState) (url : String) (b : Bool) (now : Int) :
      Reachable remotes s → url ∈ remotes →
      Reachable remotes (updateRegionStatus remotes s url b now)

/-! ## Operation log: `queue_operation`, the push query, `/internal/changes` -/

/-- An operation-log entry exactly as `queue_operation` writes it. -/
structure OpEntry where
  operation_type : String
  collection : String
  document_id : String
  data : Doc
  timestamp : Int
  synced_to : List String
  region_origin : String
deriving DecidableEq, Repr

/-- The method `ReplicationEngine.queue_operation`: append one entry with the local
region of origin, the current instant and an empty acknowledgement set. -/
def queueOperation (localRegion : String) (now : Int) (op_type collection document_id : String)
    (data : Doc) (log : List OpEntry) : List OpEntry :=
  log ++ [{ operation_type := op_type, collection := collection, document_id := document_id,
            data := data, timestamp := now, synced_to := [], region_origin := localRegion }]

/-- The Mongo query issued by `_push_local_changes`:
`{'region_origin': local, 'synced_to': {'$ne': {'$all': remotes}}}`.
The `$ne` operand is the literal document `{"$all": remotes}` (operators do
not nest under `$ne`), so the clause matches every entry whose `synced_to`
is not equal to — and does not contain — that literal document. -/
def pushQueryMatches (localRegion : String) (remotes : List String) (e : OpEntry) : Bool :=
  mongoValEq (.str e.region_origin) (.str localRegion) &&
    !(mongoValEq (.strArr e.synced_to) (.opDoc "$all" remotes))

/-- The fetch of pushable entries in `_push_local_changes`:
`find_many('operation_log', query, limit=100)` — no sort argument, so the
store's natural (insertion) order, capped at 100. -/
def pushFetch (localRegion : String) (remotes : List String) (log : List OpEntry) :
    List OpEntry :=
  ((log.filter (pushQueryMatches localRegion remotes)).take 100)

/-- Modelled from the spec (for comparison with `pushFetch`): the push-cycle
fetch as the specification states it — entries with `region_origin = self`
whose `synced_to` does not contain every configured peer URL, sorted
ascending by `timestamp`, capped at 100. -/
def specPushFetch (localRegion : String) (remotes : List String) (log : List OpEntry) :
    List OpEntry :=
  (((log.filter (fun e =>
      e.region_origin == localRegion && !(remotes.all (fun r => e.synced_to.contains r)))).insertionSort
        (fun a b => a.timestamp ≤ b.timestamp)).take 100)

/-- The `/internal/changes` handler (`get_changes` in `app.py`): query
`{'region_origin': REGION}` plus, when `since` is truthy, `{'timestamp':
{'$gt': since}}` — a `$gt` whose bound is the ISO-8601 *string* while the
stored `timestamp` values are native instants — sorted ascending by
`timestamp`, limit 100. -/
def getChanges (localRegion : String) (since : Option String) (log : List OpEntry) :
    List OpEntry :=
  let matchQ := fun (e : OpEntry) =>
    mongoValEq (.str e.region_origin) (.str localRegion) &&
      (match since with
       | none => true
       | some s => if s == "" then true else mongoGt (.dt e.timestamp) (.str s))
  (((log.filter matchQ).insertionSort (fun a b => a.timestamp ≤ b.timestamp)).take 100)

/-! ## Sync-metadata checkpointing and the pull path
(`_update_last_sync_time`, `_pull_from_region`) -/

/-- A `sync_metadata` document as `_update_last_sync_time` writes it. -/
structure SyncMeta where
  local_region : String
  remote_region : String
  last_sync_time : Int
  last_updated : Int
deriving DecidableEq, Repr

/-- Store `find_one('sync_metadata', {'local_region': lr, 'remote_region': rr})`. -/
def findMeta (ms : List SyncMeta) (lr rr : String) : Option SyncMeta :=
  ms.find? (fun m => m.local_region == lr && m.remote_region == rr)

/-- Store `update_one` on the first matching sync-metadata document with
`{'last_sync_time': t, 'last_updated': n}`. -/
def updateFirstMeta (ms : List SyncMeta) (lr rr : String) (t n : Int) : List SyncMeta :=
  match ms with
  | [] => []
  | m :: rest =>
      if m.local_region == lr && m.remote_region == rr then
        { m with last_sync_time := t, last_updated := n } :: rest
      else m :: updateFirstMeta rest lr rr t n

/-- The method `ReplicationEngine._update_last_sync_time(region_url, sync_time)`:
update the existing (local, remote) document if present, otherwise insert a
fresh one. `n` is the `datetime.now` read for `last_updated`. -/
def updateLastSyncTime (localRegion url : String) (syncTime n : Int) (ms : List SyncMeta) :
    List SyncMeta :=
  match findMeta ms localRegion url with
  | some _ => updateFirstMeta ms localRegion url syncTime n
  | none => ms ++ [{ local_region := localRegion, remote_region := url,
                     last_sync_time := syncTime, last_updated := n }]

/-- Named collections of the document store, as an association list; a
collection never written is empty. -/
def getColl (cs : List (String × List Doc)) (name : String) : List Doc :=
  match cs.find? (fun p => p.1 == name) with
  | some p => p.2
  | none => []

def setColl (cs : List (String × List Doc)) (name : String) (v : List Doc) :
    List (String × List Doc) :=
  match cs with
  | [] => [(name, v)]
  | (n0, v0) :: rest => if n0 == name then (name, v) :: rest else (n0, v0) :: setColl rest name v

/-- The method `ReplicationEngine._apply_operations` over a batch: per-entry
best-effort application to the entry's collection. The recorded conflict
outcomes are returned alongside. -/
def applyOperations (parse : String → Option Int) (ops : List OpIn)
    (cs : List (String × List Doc)) : List (String × List Doc) × List Outcome :=
  ops.foldl
    (fun acc op =>
      let r := applyOperation parse op (getColl acc.1 op.collection)
      (setColl acc.1 op.collection r.1,
       match r.2 with
       | some o => acc.2 ++ [o]
       | none => acc.2))
    (cs, [])

/-- The peer's response to `GET /internal/changes` as `_pull_from_region`
sees it: an HTTP status with a decoded operations batch, or a raised
exception (timeout, connection error, JSON error). -/
inductive PullResp where
  | http (status : Nat) (ops : List OpIn)
  | exn
deriving DecidableEq, Repr

/-- The store-and-engine state threaded through a pull. -/
structure PullSt where
  engine : EngineState
  sync_metadata : List SyncMeta
  colls : List (String × List Doc)
deriving DecidableEq, Repr

/-- The method `ReplicationEngine._pull_from_region(region_url)` for one peer, with the
peer's response and the wall clock passed in. On HTTP 200 the batch is
applied and the checkpoint written only when the `operations` list is
truthy (non-empty); the peer is then marked connected. Any other status or
a raised exception marks it disconnected. -/
def pullFromRegion (parse : String → Option Int) (remotes : List String)
    (localRegion url : String) (resp : PullResp) (now : Int) (s : PullSt) : PullSt :=
  match resp with
  | .http status ops =>
      if status == 200 then
        let s1 :=
          if ops.isEmpty then s
          else { s with
                 colls := (applyOperations parse ops s.colls).1,
                 sync_metadata := updateLastSyncTime localRegion url now now s.sync_metadata }
        { s1 with engine := updateRegionStatus remotes s1.engine url true now }
      else { s with engine := updateRegionStatus remotes s.engine url false now }
  | .exn => { s with engine := updateRegionStatus remotes s.engine url false now }

/-! ## Configuration (`config.py`) -/

/-- The configuration values the replication plane reads, with the defaults
of `config.py` (`REGION = north_america`, `REMOTE_REGIONS = []`,
`SYNC_INTERVAL = 5`, `REQUEST_TIMEOUT = 3`). -/
structure Config where
  REGION : String
  REMOTE_REGIONS : List String
  SYNC_INTERVAL : Int
  REQUEST_TIMEOUT : Int
deriving DecidableEq, Repr

def defaultConfig : Config :=
  { REGION := "north_america", REMOTE_REGIONS := [], SYNC_INTERVAL := 5, REQUEST_TIMEOUT := 3 }

def validPostTypes : List String :=
  ["shelter", "food", "medical", "water", "safety", "help"]

def validRegions : List String :=
  ["north_america", "europe", "asia_pacific"]

/-! ## Scatter-gather query router (`QueryRouter.scatter_gather`) -/

/-- The fate of one peer's request inside the scatter-gather fan-out:
`ok j` — HTTP 200 with decoded JSON body `j` (any exception or non-200
status inside `_query_region` is caught there and surfaces as `fail`);
`pending` — the future had not completed when the aggregate
`as_completed(timeout = 2 * timeout_per_region)` deadline expired. -/
inductive PeerOutcome where
  | ok (j : Bson)
  | fail
  | pending
deriving DecidableEq, Repr

/-- The metadata dictionary built at the end of `scatter_gather`. -/
structure SGMeta where
  total_regions_queried : Nat
  successful_regions : List String
  failed_regions : List String
  success_rate : ℚ
  timeout_per_region : Int
deriving DecidableEq, Repr

structure SGResult where
  results : List Bson
  metadata : SGMeta
deriving DecidableEq, Repr

/-- One iteration of the `as_completed` gather loop: a truthy result puts
the peer in `successful_regions` (a dict body is appended whole, a list
body extended element-wise, any other type only logged); a falsy result or
a raised error puts it in `failed_regions`. -/
def gatherStep (acc : List Bson × List String × List String) (p : String × PeerOutcome) :
    List Bson × List String × List String :=
  match p.2 with
  | .ok j =>
      if pyTruthy (some j) then
        (match j with
         | .opDoc _ _ => (acc.1 ++ [j], acc.2.1 ++ [p.1], acc.2.2)
         | .geo _ _ => (acc.1 ++ [j], acc.2.1 ++ [p.1], acc.2.2)
         | .strArr a => (acc.1 ++ a.map Bson.str, acc.2.1 ++ [p.1], acc.2.2)
         | _ => (acc.1, acc.2.1 ++ [p.1], acc.2.2))
      else (acc.1, acc.2.1, acc.2.2 ++ [p.1])
  | .fail => (acc.1, acc.2.1, acc.2.2 ++ [p.1])
  | .pending => acc

/-- The method `QueryRouter.scatter_gather`, parameterized by the configured peers and
by the completed futures in completion order (each with its outcome).
`ThreadPoolExecutor(max_workers=len(peers))` raises `ValueError` when the
peer list is empty, and `as_completed(futures, timeout = 2 * timeout)`
raises `TimeoutError` when any future is still pending at the deadline;
both exceptions propagate out of `scatter_gather` (`.error`). -/
def scatterGather (timeoutPerRegion : Int) (peers : List String)
    (completed : List (String × PeerOutcome)) : Except Unit SGResult :=
  if peers.length == 0 then .error ()
  else if completed.any (fun p => p.2 == .pending) then .error ()
  else
    let r := completed.foldl gatherStep ([], [], [])
    .ok { results := r.1
          metadata :=
            { total_regions_queried := peers.length
              successful_regions := r.2.1
              failed_regions := r.2.2
              success_rate :=
                if peers.isEmpty then 0
                else ((r.2.1.length : ℚ) / (peers.length : ℚ))
              timeout_per_region := timeoutPerRegion } }

/-- The `global=true` branch of `GET /api/posts` (`get_posts` in
`posts.py`), reduced to its HTTP status: an invalid `post_type` gives 400;
a raised `scatter_gather` is caught by the handler's blanket `except` and
gives 500; otherwise 200. -/
def getPostsGlobalStatus (cfg : Config) (postType : Option String)
    (completed : List (String × PeerOutcome)) : Nat :=
  match postType with
  | some pt =>
      if !(validPostTypes.contains pt) then 400
      else
        match scatterGather cfg.REQUEST_TIMEOUT cfg.REMOTE_REGIONS completed with
        | .error _ => 500
        | .ok _ => 200
  | none =>
      match scatterGather cfg.REQUEST_TIMEOUT cfg.REMOTE_REGIONS completed with
      | .error _ => 500
      | .ok _ => 200

/-! ## Public HTTP write handlers (`routes/posts.py`, `routes/users.py`)

The JSON request bodies are embedded at the granularity the handlers read
them: string fields that are absent or `None` are embedded as `""` (both
fail the same truthiness checks in `validate`), and a `location` value is
either absent or a well-typed GeoJSON object with rational coordinates. -/

/-- A GeoJSON location object `{type: ..., coordinates: [...]}`. -/
structure LocObj where
  ltype : String
  coordinates : List ℚ
deriving DecidableEq, Repr

def LocObj.toBson (l : LocObj) : Bson := .geo l.ltype l.coordinates

/-- The default location of `Post.__init__`/`User.__init__`:
`{"type": "Point", "coordinates": [0.0, 0.0]}`. -/
def defaultLoc : LocObj := { ltype := "Point", coordinates := [0, 0] }

/-- Python `len(s.strip()) == 0`, computed on the character list. -/
def stripEmpty (s : String) : Bool :=
  ((s.toList.dropWhile Char.isWhitespace).reverse.dropWhile Char.isWhitespace).isEmpty

/-- The location checks shared by `Post.validate` and `User.validate`. -/
def validLoc (l : LocObj) : Bool :=
  l.ltype == "Point" &&
    (match l.coordinates with
     | [lon, lat] => decide (-180 ≤ lon ∧ lon ≤ 180 ∧ -90 ≤ lat ∧ lat ≤ 90)
     | _ => false)

/-- The `Post` model fields (`models/post.py`). -/
structure PostModel where
  post_id : String
  user_id : String
  post_type : String
  message : String
  location : LocObj
  region : String
  capacity : Option Int
deriving DecidableEq, Repr

/-- The method `Post.validate`. -/
def PostModel.validate (p : PostModel) : Bool :=
  p.user_id ≠ "" && p.post_type ≠ "" && validPostTypes.contains p.post_type &&
    !(stripEmpty p.message) && p.region ≠ "" && validLoc p.location &&
    (if p.post_type == "shelter" then
       match p.capacity with
       | some c => decide (0 ≤ c)
       | none => true
     else true)

/-- The method `Post.to_dict`, with both `timestamp` and `last_modified` set to the
creation instant `now` (as `Post.__init__` does for a fresh post). -/
def PostModel.toDict (p : PostModel) (now : Int) : Doc :=
  let base : Doc :=
    [("post_id", .str p.post_id), ("user_id", .str p.user_id),
     ("post_type", .str p.post_type), ("message", .str p.message),
     ("location", p.location.toBson), ("region", .str p.region),
     ("timestamp", .dt now), ("last_modified", .dt now)]
  let cap : Doc :=
    match p.capacity with
    | some c => [("capacity", Bson.intv c)]
    | none => []
  base ++ cap

/-- The `User` model fields (`models/user.py`). -/
structure UserModel where
  user_id : String
  name : String
  email : String
  region : String
  location : LocObj
  verified : Bool
  reputation : Int
deriving DecidableEq, Repr

/-- The method `User.validate`. -/
def UserModel.validate (u : UserModel) : Bool :=
  !(stripEmpty u.name) && u.email ≠ "" && u.email.toList.contains '@' && u.region ≠ "" &&
    validLoc u.location

/-- The method `User.to_dict`, with `created_at` set to the creation instant. -/
def UserModel.toDict (u : UserModel) (now : Int) : Doc :=
  [("user_id", .str u.user_id), ("name", .str u.name), ("email", .str u.email),
   ("region", .str u.region), ("location", u.location.toBson),
   ("verified", .boolv u.verified), ("reputation", .intv u.reputation),
   ("created_at", .dt now)]

/-- The fields `create_post` reads from its JSON body. -/
structure PostBody where
  user_id : Option String
  post_type : Option String
  message : Option String
  location : Option LocObj
  region : Option String
  capacity : Option Int
deriving DecidableEq, Repr

/-- The fields `create_user` reads from its JSON body. -/
structure UserBody where
  name : Option String
  email : Option String
  region : Option String
  location : Option LocObj
  verified : Option Bool
  reputation : Option Int
deriving DecidableEq, Repr

/-- The store state the write handlers touch. -/
structure AppDB where
  posts : List Doc
  users : List Doc
  op_log : List OpEntry
deriving DecidableEq, Repr

/-- The six public write endpoints. `markSafe` carries the optional
`user_id` of its JSON body. -/
inductive Request where
  | createPost (body : PostBody)
  | updatePost (post_id : String) (body : Doc)
  | deletePost (post_id : String)
  | createUser (body : UserBody)
  | updateUser (user_id : String) (body : Doc)
  | markSafe (user_id : Option String)
deriving DecidableEq, Repr

/-- The update-dict built by `update_post`/`update_user`: the allowed
fields present in the body, in the allowed-field order. -/
def pickFields (allowed : List String) (body : Doc) : Doc :=
  allowed.foldl
    (fun acc f =>
      match body.get f with
      | some v => acc.append [(f, v)]
      | none => acc) []

/-- The write handlers of `routes/posts.py` and `routes/users.py`, reduced
to (HTTP status, new store state). `now` is the wall clock and `freshId`
the UUID `uuid.uuid4()` would mint for a freshly created document. In
`update_user`, an update-dict that ends up empty makes the store reject the
empty `$set`, which the handler's blanket `except` turns into a 500. In
`mark_safe`, a stored `name`/`region`/`location` of an unexpected BSON type
is embedded by its Python fallback value. -/
def handle (cfg : Config) (now : Int) (freshId : String) :
    Request → AppDB → Nat × AppDB
  | .createPost body, db =>
      let p : PostModel :=
        { post_id := freshId
          user_id := body.user_id.getD ""
          post_type := body.post_type.getD ""
          message := body.message.getD ""
          location := body.location.getD defaultLoc
          region := body.region.getD cfg.REGION
          capacity := body.capacity }
      if !p.validate then (400, db)
      else
        let d := p.toDict now
        (201, { db with posts := db.posts ++ [d]
                        op_log := queueOperation cfg.REGION now "insert" "posts" p.post_id d db.op_log })
  | .updatePost pid body, db =>
      if body.isEmpty then (400, db)
      else
        match findOneBy db.posts "post_id" (.str pid) with
        | none => (404, db)
        | some _ =>
            let tail : Doc := [("last_modified", Bson.dt now)]
            let upd := pickFields ["message", "post_type", "capacity", "location"] body ++ tail
            (200, { db with posts := updateOneBy db.posts "post_id" (.str pid) upd
                            op_log := queueOperation cfg.REGION now "update" "posts" pid upd db.op_log })
  | .deletePost pid, db =>
      match findOneBy db.posts "post_id" (.str pid) with
      | none => (404, db)
      | some _ =>
          (200, { db with posts := deleteOneBy db.posts "post_id" (.str pid)
                          op_log := queueOperation cfg.REGION now "delete" "posts" pid [] db.op_log })
  | .createUser body, db =>
      let u : UserModel :=
        { user_id := freshId
          name := body.name.getD ""
          email := body.email.getD ""
          region := body.region.getD cfg.REGION
          location := body.location.getD defaultLoc
          verified := body.verified.getD false
          reputation := body.reputation.getD 0 }
      if !u.validate then (400, db)
      else if (findOneBy db.users "email" (.str u.email)).isSome then (409, db)
      else
        let d := u.toDict now
        (201, { db with users := db.users ++ [d]
                        op_log := queueOperation cfg.REGION now "insert" "users" u.user_id d db.op_log })
  | .updateUser uid body, db =>
      if body.isEmpty then (400, db)
      else
        match findOneBy db.users "user_id" (.str uid) with
        | none => (404, db)
        | some _ =>
            let upd := pickFields ["name", "location", "verified", "reputation"] body
            if upd.isEmpty then (500, db)
            else
              (200, { db with users := updateOneBy db.users "user_id" (.str uid) upd
                              op_log := queueOperation cfg.REGION now "update" "users" uid upd db.op_log })
  | .markSafe uid?, db =>
      match uid? with
      | none => (400, db)
      | some uid =>
          match findOneBy db.users "user_id" (.str uid) with
          | none => (404, db)
          | some u =>
              let nm := match u.get "name" with
                | some (.str s) => s
                | _ => "User"
              let p : PostModel :=
                { post_id := freshId
                  user_id := uid
                  post_type := "safety"
                  message := nm ++ " marked themselves as safe"
                  location := match u.get "location" with
                    | some (.geo t c) => { ltype := t, coordinates := c }
                    | _ => defaultLoc
                  region := match u.get "region" with
                    | some (.str s) => s
                    | _ => cfg.REGION
                  capacity := none }
              let d := p.toDict now
              (200, { db with posts := db.posts ++ [d]
                              op_log := queueOperation cfg.REGION now "insert" "posts" p.post_id d db.op_log })

/-- The collection a successful request's operation-log entry names. -/
def Request.opColl : Request → String
  | .createPost _ => "posts"
  | .updatePost _ _ => "posts"
  | .deletePost _ => "posts"
  | .createUser _ => "users"
  | .updateUser _ _ => "users"
  | .markSafe _ => "posts"

/-- The operation type a successful request's log entry names. -/
def Request.opKind : Request → String
  | .createPost _ => "insert"
  | .updatePost _ _ => "update"
  | .deletePost _ => "delete"
  | .createUser _ => "insert"
  | .updateUser _ _ => "update"
  | .markSafe _ => "insert"

/-- The document id a successful request's log entry names (`freshId` for
freshly minted documents). -/
def Request.opDocId : Request → String → String
  | .createPost _, freshId => freshId
  | .updatePost pid _, _ => pid
  | .deletePost pid, _ => pid
  | .createUser _, freshId => freshId
  | .updateUser uid _, _ => uid
  | .markSafe _, freshId => freshId

/-- Statuses 200 and 201 are the success statuses the write handlers return. -/
def isSuccess (status : Nat) : Bool := status == 200 || status == 201

/-! ## Spec-side comparison definitions -/

/-- Lexicographic strict order on character lists (for the spec-side
tie-break). -/
def lexLt : List Char → List Char → Bool
  | [], [] => false
  | [], _ :: _ => true
  | _ :: _, [] => false
  | a :: as, b :: bs => if a < b then true else if b < a then false else lexLt as bs

/-- Lexicographic strict order on strings. -/
def strLexLt (x y : String) : Bool := lexLt x.toList y.toList

/-- Modelled from the spec (for comparison with `resolveConflict`): the
claimed conflict decision including the lexicographic `region_origin`
tie-break on equal instants. The claim does not fix which side the
lexicographic order favors, so the direction is a parameter: with
`d = true` the side with the lexicographically smaller `region_origin`
wins the tie, with `d = false` the larger. -/
def specC1Outcome (d : Bool) (remoteT localT : Option Int)
    (remoteRegion localRegion : String) : Outcome :=
  match remoteT, localT with
  | some r, some l =>
      if l < r then .remote_wins
      else if r < l then .local_wins
      else
        if d then (if strLexLt remoteRegion localRegion then .remote_wins else .local_wins)
        else (if strLexLt localRegion remoteRegion then .remote_wins else .local_wins)
  | _, _ => .unresolved

/-- Modelled from the spec (for comparison with `getChanges`): the
`/internal/changes` response as the claim states it — locally-originated
entries with `timestamp` strictly newer than the instant `since` denotes,
sorted ascending by `timestamp`, capped at 100. -/
def specGetChanges (localRegion : String) (sinceT : Option Int) (log : List OpEntry) :
    List OpEntry :=
  (((log.filter (fun e =>
      e.region_origin == localRegion &&
        (match sinceT with
         | none => true
         | some t => decide (t < e.timestamp)))).insertionSort
            (fun a b => a.timestamp ≤ b.timestamp)).take 100)

/-! ## Concrete instances used by counterexamples and witnesses -/

/-- A parse function used where no string timestamp is ever parsed. -/
def parse0 : String → Option Int := fun _ => none

def c1rA : Doc := [("last_modified", .dt 100), ("region_origin", .str "asia_pacific")]

def c1lB : Doc := [("last_modified", .dt 100), ("region_origin", .str "north_america")]

def c1rB : Doc := [("last_modified", .dt 100), ("region_origin", .str "north_america")]

def c1lA : Doc := [("last_modified", .dt 100), ("region_origin", .str "asia_pacific")]

/-- A partial remote update dict: only `last_modified` (as `update_post`
replicates). -/
def c1r3 : Doc := [("last_modified", .dt 200)]

def c1l3 : Doc :=
  [("post_id", .str "p1"), ("message", .str "m"), ("timestamp", .dt 50),
   ("last_modified", .dt 100)]

def c1r4 : Doc := [("last_modified", .dt 90)]

/-- A local document with a string-typed `timestamp` (the legacy condition
of the fixup branch). -/
def c1l4 : Doc :=
  [("post_id", .str "p1"), ("timestamp", .str "2024-01-01T00:00:00Z"),
   ("last_modified", .dt 100)]

def c3peers : List String := ["http://eu", "http://ap"]

/-- Fully acknowledged entry (later timestamp, earlier in store order). -/
def c3e1 : OpEntry :=
  { operation_type := "insert", collection := "posts", document_id := "p1",
    data := [], timestamp := 5, synced_to := ["http://eu", "http://ap"],
    region_origin := "north_america" }

/-- Unacknowledged entry (earlier timestamp, later in store order). -/
def c3e2 : OpEntry :=
  { operation_type := "insert", collection := "posts", document_id := "p2",
    data := [], timestamp := 1, synced_to := [], region_origin := "north_america" }

/-- A locally-originated operation-log entry at instant 100. -/
def c8entry : OpEntry :=
  { operation_type := "insert", collection := "posts", document_id := "p1",
    data := [], timestamp := 100, synced_to := [], region_origin := "north_america" }

def c9peers : List String := ["http://a", "http://b"]

/-- Two failed contacts with the first peer, 10 seconds apart, before the
second peer was ever attempted. -/
def c9state : EngineState :=
  updateRegionStatus c9peers
    (updateRegionStatus c9peers EngineState.init "http://a" false 0) "http://a" false 10

/-- A fully-contacted isolated state: both peers failed, then the first
failed again past the threshold. -/
def c9full : EngineState :=
  updateRegionStatus c9peers
    (updateRegionStatus c9peers
      (updateRegionStatus c9peers EngineState.init "http://a" false 0)
      "http://b" false 1)
    "http://a" false 11

/-- Pull state with no checkpoints, empty store. -/
def c6st : PullSt := { engine := EngineState.init, sync_metadata := [], colls := [] }

def c4body : PostBody :=
  { user_id := some "u1", post_type := some "help", message := some "m",
    location := some { ltype := "Point", coordinates := [-122, 37] },
    region := some "north_america", capacity := none }

def c2op : OpIn :=
  { operation_type := "insert", collection := "posts", document_id := "p9",
    data := [("post_id", .str "p9"), ("message", .str "hi")] }

/-! ## Helper lemmas -/

theorem mongoValEq_str (x y : String) : mongoValEq (.str x) (.str y) = (x == y) := by
  by_cases h : x = y
  · subst h
    simp [mongoValEq]
  · simp [mongoValEq, h]

theorem mongoValEq_arr_opdoc (a : List String) (k : String) (r : List String) :
    mongoValEq (.strArr a) (.opDoc k r) = false := rfl

theorem okBind {ε α β : Type} (a : α) (f : α → Except ε β) :
    ((Except.ok a : Except ε α) >>= f) = f a := rfl

theorem errBind {ε α β : Type} (e : ε) (f : α → Except ε β) :
    ((Except.error e : Except ε α) >>= f) = Except.error e := rfl

/-! ## Claim theorems -/

/-- C3 (amended): the fetch of pushable entries in `_push_local_changes` is
exactly the operation-log entries whose `region_origin` equals the local
region, in store order, capped at 100 — the `synced_to` clause of the query
compares against the literal document `{"$all": peers}` and therefore
matches every entry (its `synced_to` is an array of URLs), and no sort is
requested. -/
theorem C3_push_fetch_is_region_only (lr : String) (rs : List String) (log : List OpEntry) :
    pushFetch lr rs log = (log.filter (fun e => e.region_origin == lr)).take 100 := by
  unfold pushFetch
  congr 1
  apply List.filter_congr
  intro e _
  simp [pushQueryMatches, mongoValEq_str, mongoValEq_arr_opdoc]

/-- C3 counterexample: with two configured peers, an entry already
acknowledged by both peers is still fetched, and the fetched list is not
sorted ascending by timestamp — against the claimed fetch (spec-modelled
`specPushFetch`), which would return only the unacknowledged entry. -/
theorem C3_counterexample :
    pushFetch "north_america" c3peers [c3e1, c3e2] = [c3e1, c3e2] ∧
    specPushFetch "north_america" c3peers [c3e1, c3e2] = [c3e2] ∧
    c3e1.synced_to = c3peers := by decide

/-- C8: the code at the failing input. The stored `timestamp` of an
operation-log entry is a native instant while the `since` bound is the raw
ISO-8601 string, and a MongoDB `$gt` never matches across BSON types, so
`GET /internal/changes?since=...` returns no operations at all — the
spec-modelled response (`specGetChanges`, with the epoch instant 0 that the
string denotes) would return the entry. -/
theorem C8_changes_empty_at_failing_input :
    getChanges "north_america" (some "1970-01-01T00:00:00+00:00") [c8entry] = [] ∧
    specGetChanges "north_america" (some 0) [c8entry] = [c8entry] := by decide

/-- C10: with the default configuration (`REMOTE_REGIONS = []`),
`scatter_gather` constructs `ThreadPoolExecutor(max_workers=0)`, which
raises `ValueError`, so every call raises instead of returning empty region
lists; the blanket `except` of `get_posts` turns this into HTTP 500 for
`GET /api/posts?global=true`. -/
theorem C10_scatter_raises_on_empty_peers (t : Int)
    (completed : List (String × PeerOutcome)) :
    scatterGather t defaultConfig.REMOTE_REGIONS completed = .error () ∧
    getPostsGlobalStatus defaultConfig none completed = 500 :=
  ⟨rfl, rfl⟩

/-- C1 counterexample: at equal instants the source records `local_wins`
and keeps the local document whichever way the two `region_origin` values
compare, so no lexicographic tie-break direction matches the code (first
four conjuncts); a `remote_wins` write is a `$set`-merge of `remote_data`'s
fields, not a replacement by `remote_data` (next two); and on `local_wins`
with a string-typed local `timestamp` the kept document is rewritten — its
`timestamp` receiving the remote instant (last two). -/
theorem C1_counterexample :
    specC1Outcome true (some 100) (some 100) "asia_pacific" "north_america" = .remote_wins ∧
    resolveConflict parse0 c1rA c1lB = .ok ⟨c1lB, .local_wins⟩ ∧
    specC1Outcome false (some 100) (some 100) "north_america" "asia_pacific" = .remote_wins ∧
    resolveConflict parse0 c1rB c1lA = .ok ⟨c1lA, .local_wins⟩ ∧
    resolveConflict parse0 c1r3 c1l3 = .ok ⟨Doc.setMany c1l3 c1r3, .remote_wins⟩ ∧
    Doc.setMany c1l3 c1r3 ≠ c1r3 ∧
    resolveConflict parse0 c1r4 c1l4 = .ok ⟨Doc.set c1l4 "timestamp" (.dt 90), .local_wins⟩ ∧
    Doc.set c1l4 "timestamp" (.dt 90) ≠ c1l4 :=
  ⟨by decide, rfl, by decide, rfl, rfl, by decide, rfl, by decide⟩

/-- C6 counterexample: a pull that succeeds with HTTP 200 but an empty
`operations` list records the peer as connected yet writes no
sync-metadata checkpoint (the `if operations:` guard skips
`_update_last_sync_time`). -/
theorem C6_counterexample :
    (pullFromRegion parse0 ["http://eu"] "north_america" "http://eu"
        (.http 200 []) 50 c6st).sync_metadata = [] ∧
    statusLookup (pullFromRegion parse0 ["http://eu"] "north_america" "http://eu"
        (.http 200 []) 50 c6st).engine "http://eu" =
      some { connected := true, last_success := some 50, last_attempt := some 50,
             consecutive_failures := 0 } := by
  constructor
  · rfl
  · decide

/-- C7 counterexample: a peer still pending at the aggregate
`as_completed` deadline makes `scatter_gather` raise `TimeoutError` instead
of returning metadata that counts the peer as failed; and with no peers at
all the `ThreadPoolExecutor` constructor raises instead of returning
`success_rate = 0`. -/
theorem C7_counterexample :
    scatterGather 3 ["http://eu"] [("http://eu", .pending)] = .error () ∧
    scatterGather 3 [] [] = .error () :=
  ⟨rfl, rfl⟩

/-- C9 counterexample: with peers `a` and `b`, two failed contacts with `a`
ten seconds apart reach a state with `is_island = true` in which the
configured peer `b` has no liveness record at all — so not every configured
peer has a record with `consecutive_failures ≥ 1`. -/
theorem C9_counterexample :
    Reachable c9peers c9state ∧ c9state.island_mode_active = true ∧
    "http://b" ∈ c9peers ∧ statusLookup c9state "http://b" = none := by
  refine ⟨?_, by decide, by decide, by decide⟩
  show Reachable c9peers
    (updateRegionStatus c9peers
      (updateRegionStatus c9peers EngineState.init "http://a" false 0) "http://a" false 10)
  exact Reachable.step _ _ _ _
    (Reachable.step _ _ _ _ Reachable.init (by decide)) (by decide)

/-- C1 (amended): for every conflict-resolution invocation where both
documents have a normalizable `last_modified` (falling back to
`timestamp`): if the remote instant is strictly greater, `remote_data`'s
fields are `$set`-written over the local document and `remote_wins` is
recorded; if the remote instant is less than or equal — equality included,
with no `region_origin` tie-break — `local_wins` is recorded and the local
document is kept when its stored timestamp fields are native, while
string-typed timestamp fields are rewritten to instants (via
`localWinsFixup`, whose failure records nothing); if either instant is
missing (falsy), the local document is kept and `unresolved` is recorded. -/
theorem C1_lww_decision (parse : String → Option Int) :
    (∀ remote_data local_data : Doc, ∀ rt lt : Int,
      normTime parse (pyOrTime remote_data) = .ok (some (.dt rt)) →
      normTime parse (pyOrTime local_data) = .ok (some (.dt lt)) →
      (lt < rt →
        resolveConflict parse remote_data local_data =
          .ok ⟨local_data.setMany remote_data, .remote_wins⟩) ∧
      (rt ≤ lt → isStrField local_data "timestamp" = false →
        isStrField local_data "last_modified" = false →
        resolveConflict parse remote_data local_data = .ok ⟨local_data, .local_wins⟩) ∧
      (rt ≤ lt →
        (isStrField local_data "timestamp" || isStrField local_data "last_modified") = true →
        resolveConflict parse remote_data local_data =
          Except.map (fun d => ⟨d, .local_wins⟩) (localWinsFixup parse local_data (.dt rt)))) ∧
    (∀ remote_data local_data : Doc, ∀ vr vl : Option Bson,
      normTime parse (pyOrTime remote_data) = .ok vr →
      normTime parse (pyOrTime local_data) = .ok vl →
      (pyTruthy vr = false ∨ pyTruthy vl = false) →
      resolveConflict parse remote_data local_data = .ok ⟨local_data, .unresolved⟩) := by
  constructor
  · intro r l rt lt hr hl
    refine ⟨?_, ?_, ?_⟩
    · intro hlt
      simp [resolveConflict, hr, hl, okBind, pyGtTime, pyTruthy, hlt]
    · intro hle h1 h2
      have hnlt : ¬ (lt < rt) := not_lt.mpr hle
      simp [resolveConflict, hr, hl, okBind, pyGtTime, pyTruthy, hnlt, h1, h2]
    · intro hle hs
      have hnlt : ¬ (lt < rt) := not_lt.mpr hle
      cases hfix : localWinsFixup parse l (.dt rt) with
      | ok d =>
          simp [resolveConflict, hr, hl, okBind, pyGtTime, pyTruthy, hnlt, hs,
            hfix, Except.map]
      | error e =>
          simp [resolveConflict, hr, hl, okBind, errBind, pyGtTime, pyTruthy, hnlt, hs,
            hfix, Except.map]
  · intro r l vr vl hr hl hfalsy
    cases vr with
    | none => simp [resolveConflict, hr, hl, okBind]
    | some a =>
        cases vl with
        | none => simp [resolveConflict, hr, hl, okBind]
        | some b =>
            rcases hfalsy with h | h
            · simp [resolveConflict, hr, hl, okBind, h]
            · simp [resolveConflict, hr, hl, okBind, h]

/-- Witness for C1: a concrete invocation where the remote instant (200) is
newer than the local one (100), so the remote data is merged in and
`remote_wins` recorded. -/
theorem C1_lww_decision_witness :
    resolveConflict parse0 c1r3 c1l3 = .ok ⟨Doc.setMany c1l3 c1r3, .remote_wins⟩ :=
  ((C1_lww_decision parse0).1 c1r3 c1l3 200 100 rfl rfl).1 (by decide)

/-- C2: dispatch of one incoming replication entry in `_apply_operations`:
an `insert` inserts the (timestamp-normalized) data when no document with
`{collection[:-1]_id: doc_id}` exists and otherwise runs the conflict
resolver; an `update` runs the resolver when such a document exists and
otherwise inserts the data; a `delete` removes the first document with
that id unconditionally, with no timestamp comparison. -/
theorem C2_apply_dispatch (parse : String → Option Int) (op : OpIn) (coll : List Doc) :
    (op.operation_type = "insert" →
      findOneBy coll (idKey op.collection) (.str op.document_id) = none →
      applyOperation parse op coll = (coll ++ [deserializeTimestamps parse op.data], none)) ∧
    (op.operation_type = "insert" → ∀ ex,
      findOneBy coll (idKey op.collection) (.str op.document_id) = some ex →
      applyOperation parse op coll =
        resolveApply parse coll (idKey op.collection) (.str op.document_id)
          (deserializeTimestamps parse op.data) ex) ∧
    (op.operation_type = "update" → ∀ ex,
      findOneBy coll (idKey op.collection) (.str op.document_id) = some ex →
      applyOperation parse op coll =
        resolveApply parse coll (idKey op.collection) (.str op.document_id)
          (deserializeTimestamps parse op.data) ex) ∧
    (op.operation_type = "update" →
      findOneBy coll (idKey op.collection) (.str op.document_id) = none →
      applyOperation parse op coll = (coll ++ [deserializeTimestamps parse op.data], none)) ∧
    (op.operation_type = "delete" →
      applyOperation parse op coll =
        (deleteOneBy coll (idKey op.collection) (.str op.document_id), none)) := by
  refine ⟨?_, ?_, ?_, ?_, ?_⟩
  · intro h hfind
    simp [applyOperation, h, hfind]
  · intro h ex hfind
    simp [applyOperation, resolveApply, h, hfind]
  · intro h ex hfind
    simp [applyOperation, resolveApply, h, hfind]
  · intro h hfind
    simp [applyOperation, h, hfind]
  · intro h
    simp [applyOperation, h]

/-- Witness for C2: applying a concrete `insert` to an empty collection
appends the entry's data. -/
theorem C2_apply_dispatch_witness :
    applyOperation parse0 c2op [] = ([deserializeTimestamps parse0 c2op.data], none) :=
  (C2_apply_dispatch parse0 c2op []).1 rfl rfl

theorem setStatus_ne_nil (l : List (String × RegionStatus)) (url : String)
    (r : RegionStatus) : setStatus l url r ≠ [] := by
  cases l with
  | nil => simp [setStatus]
  | cons p rest =>
      obtain ⟨u, r0⟩ := p
      simp only [setStatus]
      split <;> simp

theorem connectedCount_setStatus_pos (l : List (String × RegionStatus)) (url : String)
    (r : RegionStatus) (h : r.connected = true) :
    connectedCount (setStatus l url r) ≠ 0 := by
  induction l with
  | nil => simp [setStatus, connectedCount, List.filter_cons, h]
  | cons p rest ih =>
      obtain ⟨u, r0⟩ := p
      simp only [setStatus]
      split
      · simp [connectedCount, List.filter_cons, h]
      · simp only [connectedCount, List.filter_cons] at ih ⊢
        split
        · simp
        · exact ih

theorem connectedCount_eq_zero_iff (l : List (String × RegionStatus)) :
    connectedCount l = 0 ↔ ∀ p ∈ l, p.2.connected = false := by
  simp [connectedCount, List.length_eq_zero, List.filter_eq_nil_iff]

theorem checkIsland_region_status (remotes : List String) (now : Int) (s1 : EngineState) :
    (checkIslandMode remotes now s1).region_status = s1.region_status := by
  unfold checkIslandMode
  repeat' split
  all_goals rfl

theorem checkIsland_clears (remotes : List String) (now : Int) (s1 : EngineState)
    (h1 : remotes ≠ []) (h2 : connectedCount s1.region_status ≠ 0) :
    (checkIslandMode remotes now s1).island_mode_active = false ∧
    (checkIslandMode remotes now s1).island_mode_start_time = none := by
  have hr : (remotes.length == 0) = false :=
    beq_eq_false_iff_ne.mpr (fun hh => h1 (List.length_eq_zero.mp hh))
  have hc : (connectedCount s1.region_status == 0) = false := beq_eq_false_iff_ne.mpr h2
  simp only [checkIslandMode, hr, hc, Bool.false_eq_true, if_false]
  split
  · simp
  · rename_i hcond
    simpa using hcond

theorem updateRegionStatus_true_clears (remotes : List String) (s : EngineState)
    (url : String) (now : Int) (h1 : remotes ≠ []) :
    (updateRegionStatus remotes s url true now).island_mode_active = false ∧
    (updateRegionStatus remotes s url true now).island_mode_start_time = none := by
  unfold updateRegionStatus
  cases hm : statusLookup s url with
  | none =>
      simp only [hm]
      apply checkIsland_clears _ _ _ h1
      apply connectedCount_setStatus_pos
      rfl
  | some st =>
      simp only [hm]
      apply checkIsland_clears _ _ _ h1
      apply connectedCount_setStatus_pos
      rfl

/-- C5: any successful peer contact demotes the island-mode machine
directly to CONNECTED: after `_update_region_status(url, True)` from any
prior state, `get_island_mode_status()` reports `is_island = false` and
`isolation_start = null`. -/
theorem C5_peer_success_demotes (remotes : List String) (s : EngineState) (url : String)
    (now : Int) (h : url ∈ remotes) :
    (getIslandModeStatus remotes (updateRegionStatus remotes s url true now)).is_island =
      false ∧
    (getIslandModeStatus remotes
      (updateRegionStatus remotes s url true now)).isolation_start = none := by
  have h1 : remotes ≠ [] := by
    intro hh
    rw [hh] at h
    cases h
  simpa [getIslandModeStatus] using updateRegionStatus_true_clears remotes s url now h1

/-- Witness for C5: a success from the single configured peer, from a
concrete isolated state. -/
theorem C5_peer_success_demotes_witness :
    (getIslandModeStatus ["http://a"]
      (updateRegionStatus ["http://a"] c9state "http://a" true 20)).is_island = false ∧
    (getIslandModeStatus ["http://a"]
      (updateRegionStatus ["http://a"] c9state "http://a" true 20)).isolation_start = none :=
  C5_peer_success_demotes ["http://a"] c9state "http://a" 20 (by decide)

theorem mem_setStatus {l : List (String × RegionStatus)} {url : String} {r : RegionStatus}
    {p : String × RegionStatus} (h : p ∈ setStatus l url r) : p.2 = r ∨ p ∈ l := by
  induction l with
  | nil =>
      simp only [setStatus, List.mem_singleton] at h
      left
      rw [h]
  | cons q rest ih =>
      obtain ⟨u, r0⟩ := q
      simp only [setStatus] at h
      by_cases hu : (u == url) = true
      · rw [if_pos hu] at h
        rcases List.mem_cons.mp h with h | h
        · left
          rw [h]
        · right
          exact List.mem_cons_of_mem _ h
      · rw [if_neg hu] at h
        rcases List.mem_cons.mp h with h | h
        · right
          rw [h]
          exact List.mem_cons_self _ _
        · rcases ih h with h' | h'
          · left
            exact h'
          · right
            exact List.mem_cons_of_mem _ h'

/-- Records created or rewritten by `_update_region_status` with
`is_connected = False` carry `consecutive_failures ≥ 1`; others are
untouched. -/
theorem reachable_failures {remotes : List String} {s : EngineState}
    (h : Reachable remotes s) :
    ∀ p ∈ s.region_status, p.2.connected = false → 1 ≤ p.2.consecutive_failures := by
  induction h with
  | init => simp [EngineState.init]
  | step s0 url b now hr hmem ih =>
      intro p hp hconn
      rw [updateRegionStatus, checkIsland_region_status] at hp
      cases hm : statusLookup s0 url with
      | none =>
          rw [hm] at hp
          rcases mem_setStatus hp with h' | h'
          · cases b with
            | true => rw [h'] at hconn; cases hconn
            | false => rw [h']; simp
          · exact ih p h' hconn
      | some st =>
          rw [hm] at hp
          rcases mem_setStatus hp with h' | h'
          · cases b with
            | true => rw [h'] at hconn; cases hconn
            | false => rw [h']; simp
          · exact ih p h' hconn

/-- The island flag ends a `_check_island_mode` run set only in the branch
where no recorded peer is connected. -/
theorem checkIsland_active_cases (remotes : List String) (now : Int) (s1 : EngineState)
    (ha : (checkIslandMode remotes now s1).island_mode_active = true) :
    connectedCount s1.region_status = 0 ∧ remotes.length ≠ 0 := by
  unfold checkIslandMode at ha
  by_cases h0 : (remotes.length == 0) = true
  · rw [if_pos h0] at ha
    split at ha
    · cases ha
    · rename_i hact
      exact absurd ha hact
  · rw [if_neg h0] at ha
    by_cases hc : (connectedCount s1.region_status == 0) = true
    · exact ⟨by simpa using hc, fun hh => h0 (by simp [hh])⟩
    · rw [if_neg hc] at ha
      split at ha
      · cases ha
      · rename_i hcond
        have := (by simpa using hcond : s1.island_mode_active = false ∧
          s1.island_mode_start_time = none)
        rw [this.1] at ha
        cases ha

/-- In any reachable state with the island flag set, at least one liveness
record exists and every recorded peer is disconnected. -/
theorem reachable_island_disconnected {remotes : List String} {s : EngineState}
    (h : Reachable remotes s) (ha : s.island_mode_active = true) :
    s.region_status ≠ [] ∧ ∀ p ∈ s.region_status, p.2.connected = false := by
  cases h with
  | init => cases ha
  | step s0 url b now hr hmem =>
      rw [updateRegionStatus] at ha ⊢
      cases hm : statusLookup s0 url with
      | none =>
          rw [hm] at ha
          have hc := (checkIsland_active_cases _ _ _ ha).1
          rw [checkIsland_region_status]
          exact ⟨setStatus_ne_nil _ _ _, (connectedCount_eq_zero_iff _).mp hc⟩
      | some st =>
          rw [hm] at ha
          have hc := (checkIsland_active_cases _ _ _ ha).1
          rw [checkIsland_region_status]
          exact ⟨setStatus_ne_nil _ _ _, (connectedCount_eq_zero_iff _).mp hc⟩

/-- C9 (amended): in every reachable state of the liveness tracker and
island-mode machine, `is_island = true` implies that at least one liveness
record exists and that every peer that has a liveness record has
`connected = false` and `consecutive_failures ≥ 1`. (A configured peer
that has never been contacted may still lack a record.) -/
theorem C9_island_implies_recorded_failures (remotes : List String) (s : EngineState)
    (h : Reachable remotes s) (ha : s.island_mode_active = true) :
    s.region_status ≠ [] ∧
    ∀ url st, statusLookup s url = some st →
      st.connected = false ∧ 1 ≤ st.consecutive_failures := by
  obtain ⟨hne, hall⟩ := reachable_island_disconnected h ha
  refine ⟨hne, ?_⟩
  intro url st hst
  unfold statusLookup at hst
  cases hf : s.region_status.find? (fun p => p.1 == url) with
  | none => rw [hf] at hst; cases hst
  | some p =>
      rw [hf] at hst
      cases hst
      have hpm := List.mem_of_find?_eq_some hf
      have hc := hall p hpm
      exact ⟨hc, reachable_failures h p hpm hc⟩

/-- Witness for C9 (amended): the fully-contacted isolated state `c9full`
is reachable with the island flag set, and the theorem yields its non-empty
record list. -/
theorem C9_island_implies_recorded_failures_witness :
    c9full.island_mode_active = true ∧ c9full.region_status ≠ [] := by
  have hreach : Reachable c9peers c9full := by
    show Reachable c9peers
      (updateRegionStatus c9peers
        (updateRegionStatus c9peers
          (updateRegionStatus c9peers EngineState.init "http://a" false 0)
          "http://b" false 1)
        "http://a" false 11)
    exact Reachable.step _ _ _ _
      (Reachable.step _ _ _ _
        (Reachable.step _ _ _ _ Reachable.init (by decide)) (by decide)) (by decide)
  exact ⟨by decide,
    (C9_island_implies_recorded_failures c9peers c9full hreach (by decide)).1⟩

theorem findMeta_updateFirstMeta (ms : List SyncMeta) (lr rr : String) (t n : Int)
    (m0 : SyncMeta) (h : findMeta ms lr rr = some m0) :
    ∃ m, findMeta (updateFirstMeta ms lr rr t n) lr rr = some m ∧
      m.last_sync_time = t ∧ m.last_updated = n := by
  induction ms with
  | nil => cases h
  | cons q rest ih =>
      by_cases hq : (q.local_region == lr && q.remote_region == rr) = true
      · refine ⟨⟨q.local_region, q.remote_region, t, n⟩, ?_, rfl, rfl⟩
        unfold updateFirstMeta findMeta
        rw [if_pos hq]
        simp only [List.find?_cons]
        simp [hq]
      · have hq' : (q.local_region == lr && q.remote_region == rr) = false := by
          rwa [Bool.not_eq_true] at hq
        unfold findMeta at h
        simp only [List.find?_cons, hq'] at h
        obtain ⟨m, hm, ht, hn⟩ := ih h
        refine ⟨m, ?_, ht, hn⟩
        unfold updateFirstMeta findMeta
        rw [if_neg hq]
        simp only [List.find?_cons, hq']
        exact hm

theorem findMeta_updateLastSyncTime (ms : List SyncMeta) (lr rr : String) (t n : Int) :
    ∃ m, findMeta (updateLastSyncTime lr rr t n ms) lr rr = some m ∧
      m.last_sync_time = t ∧ m.last_updated = n := by
  unfold updateLastSyncTime
  cases hf : findMeta ms lr rr with
  | none =>
      refine ⟨⟨lr, rr, t, n⟩, ?_, rfl, rfl⟩
      unfold findMeta at hf ⊢
      rw [List.find?_append, hf]
      simp
  | some m0 => exact findMeta_updateFirstMeta ms lr rr t n m0 hf

/-- C6 (amended): after every pull that returns HTTP 200 with a non-empty
`operations` list, the sync-metadata entry for (local region, peer) is
upserted with `last_sync_time` (and `last_updated`) set to the local
current instant. (A 200 with an empty list skips the checkpoint — see the
counterexample.) -/
theorem C6_nonempty_pull_checkpoints (parse : String → Option Int)
    (remotes : List String) (lr url : String) (ops : List OpIn) (now : Int)
    (s : PullSt) (h : ops ≠ []) :
    ∃ m, findMeta
        (pullFromRegion parse remotes lr url (.http 200 ops) now s).sync_metadata
        lr url = some m ∧
      m.last_sync_time = now ∧ m.last_updated = now := by
  have hne : ops.isEmpty = false := by simpa [List.isEmpty_iff] using h
  simp only [pullFromRegion, hne, Bool.false_eq_true, if_false, beq_self_eq_true, if_true]
  exact findMeta_updateLastSyncTime s.sync_metadata lr url now now

/-- Witness for C6 (amended): a concrete pull of one operation writes the
checkpoint. -/
theorem C6_nonempty_pull_checkpoints_witness :
    ∃ m, findMeta
        (pullFromRegion parse0 ["http://eu"] "north_america" "http://eu"
          (.http 200 [c2op]) 50 c6st).sync_metadata
        "north_america" "http://eu" = some m ∧
      m.last_sync_time = 50 ∧ m.last_updated = 50 :=
  C6_nonempty_pull_checkpoints parse0 ["http://eu"] "north_america" "http://eu"
    [c2op] 50 c6st (by decide)

theorem gatherStep_names (acc : List Bson × List String × List String)
    (p : String × PeerOutcome) (h : p.2 ≠ .pending) :
    (((gatherStep acc p).2.1 : Multiset String) + ((gatherStep acc p).2.2 : Multiset String)) =
      ((acc.2.1 : Multiset String) + (acc.2.2 : Multiset String) + {p.1}) := by
  obtain ⟨u, o⟩ := p
  cases o with
  | ok j =>
      by_cases ht : pyTruthy (some j) = true
      · cases j <;>
          · simp only [gatherStep, ht, if_true]
            simp only [← Multiset.coe_add, Multiset.coe_singleton]
            abel
      · have ht' : pyTruthy (some j) = false := by rwa [Bool.not_eq_true] at ht
        simp only [gatherStep, ht', Bool.false_eq_true, if_false]
        simp only [← Multiset.coe_add, Multiset.coe_singleton]
        abel
  | fail =>
      simp only [gatherStep]
      simp only [← Multiset.coe_add, Multiset.coe_singleton]
      abel
  | pending => exact absurd rfl h

theorem gather_fold_names (completed : List (String × PeerOutcome)) :
    ∀ acc : List Bson × List String × List String,
      (∀ p ∈ completed, p.2 ≠ .pending) →
      (((completed.foldl gatherStep acc).2.1 : Multiset String) +
        ((completed.foldl gatherStep acc).2.2 : Multiset String)) =
      ((acc.2.1 : Multiset String) + (acc.2.2 : Multiset String) +
        ((completed.map Prod.fst : List String) : Multiset String)) := by
  induction completed with
  | nil =>
      intro acc h
      simp
  | cons p rest ih =>
      intro acc h
      simp only [List.foldl_cons, List.map_cons]
      rw [ih _ (fun q hq => h q (List.mem_cons_of_mem _ hq))]
      rw [gatherStep_names acc p (h p (List.mem_cons_self _ _))]
      simp only [← Multiset.cons_coe, ← Multiset.singleton_add]
      abel

/-- C7 (amended): every `scatter_gather` call with at least one configured
peer in which every peer request completes (succeeds or errors) within the
aggregate ceiling returns metadata where `success_rate =
|successful_regions| / |peers|`, `successful_regions ++ failed_regions` is
a permutation of the peers (so, for distinct peers, the two are disjoint
and their union is the peer set); a call with no peers, or in which some
peer never responds within the ceiling, raises instead (see the
counterexample). -/
theorem C7_scatter_metadata (timeout : Int) (peers : List String)
    (completed : List (String × PeerOutcome))
    (hne : peers ≠ [])
    (hnames : (completed.map Prod.fst).Perm peers)
    (hnp : ∀ p ∈ completed, p.2 ≠ .pending)
    (hnd : peers.Nodup) :
    ∃ r, scatterGather timeout peers completed = .ok r ∧
      r.metadata.success_rate =
        ((r.metadata.successful_regions.length : ℚ) / (peers.length : ℚ)) ∧
      (r.metadata.successful_regions ++ r.metadata.failed_regions).Perm peers ∧
      (∀ u ∈ r.metadata.successful_regions, u ∉ r.metadata.failed_regions) ∧
      (∀ u, (u ∈ r.metadata.successful_regions ∨ u ∈ r.metadata.failed_regions) ↔
        u ∈ peers) ∧
      r.metadata.total_regions_queried = peers.length := by
  have hlen : (peers.length == 0) = false := by
    cases peers with
    | nil => exact absurd rfl hne
    | cons a l => simp
  have hpe : peers.isEmpty = false := by
    cases peers with
    | nil => exact absurd rfl hne
    | cons a l => rfl
  have hpend : (completed.any fun p => p.2 == .pending) = false := by
    rw [List.any_eq_false]
    intro p hp
    simpa using hnp p hp
  have hms := gather_fold_names completed ([], [], []) hnp
  have hpermFull : ((completed.foldl gatherStep ([], [], [])).2.1 ++
      (completed.foldl gatherStep ([], [], [])).2.2).Perm peers := by
    refine List.Perm.trans ?_ hnames
    rw [← Multiset.coe_eq_coe, ← Multiset.coe_add]
    simpa using hms
  have hnodup : ((completed.foldl gatherStep ([], [], [])).2.1 ++
      (completed.foldl gatherStep ([], [], [])).2.2).Nodup :=
    (hpermFull.nodup_iff).mpr hnd
  have hdisj := (List.nodup_append.mp hnodup).2.2
  unfold scatterGather
  simp only [hlen, hpend, Bool.false_eq_true, if_false]
  refine ⟨_, rfl, ?_, hpermFull, ?_, ?_, rfl⟩
  · simp [hpe]
  · intro u hu hf
    exact hdisj hu hf
  · intro u
    rw [← List.mem_append]
    exact hpermFull.mem_iff

/-- Witness for C7 (amended): two configured peers, one returning a truthy
`{posts: ...}` body and one failing. -/
theorem C7_scatter_metadata_witness :
    ∃ r, scatterGather 3 ["http://eu", "http://ap"]
        [("http://eu", .ok (.opDoc "posts" ["p1"])), ("http://ap", .fail)] = .ok r ∧
      r.metadata.success_rate =
        ((r.metadata.successful_regions.length : ℚ) / ((2 : Nat) : ℚ)) ∧
      (r.metadata.successful_regions ++ r.metadata.failed_regions).Perm
        ["http://eu", "http://ap"] ∧
      (∀ u ∈ r.metadata.successful_regions, u ∉ r.metadata.failed_regions) ∧
      (∀ u, (u ∈ r.metadata.successful_regions ∨ u ∈ r.metadata.failed_regions) ↔
        u ∈ ["http://eu", "http://ap"]) ∧
      r.metadata.total_regions_queried = 2 :=
  C7_scatter_metadata 3 ["http://eu", "http://ap"]
    [("http://eu", .ok (.opDoc "posts" ["p1"])), ("http://ap", .fail)]
    (by decide) (by decide) (by decide) (by decide)

/-- C4: for every public write request, a success status (200/201) is
returned exactly when one operation-log entry has been appended, and that
entry carries the matching collection, operation type and document id,
`region_origin` equal to the local region, `timestamp` equal to the write
instant and an empty `synced_to` set; on any non-success status the log is
unchanged. -/
theorem C4_success_appends_one_entry (cfg : Config) (now : Int) (freshId : String)
    (req : Request) (db : AppDB) :
    (isSuccess (handle cfg now freshId req db).1 = true →
      ∃ d, (handle cfg now freshId req db).2.op_log =
        db.op_log ++ [{ operation_type := req.opKind, collection := req.opColl,
                        document_id := req.opDocId freshId, data := d,
                        timestamp := now, synced_to := [],
                        region_origin := cfg.REGION }]) ∧
    (isSuccess (handle cfg now freshId req db).1 = false →
      (handle cfg now freshId req db).2.op_log = db.op_log) := by
  cases req <;> simp only [handle] <;> repeat' split
  all_goals
    first
    | exact ⟨fun _ => ⟨_, rfl⟩, fun h => by simp [isSuccess] at h⟩
    | exact ⟨fun h => by simp [isSuccess] at h, fun _ => rfl⟩

/-- Witness for C4: a concrete valid `POST /api/posts` appends exactly one
matching `insert` entry to an empty log. -/
theorem C4_success_appends_one_entry_witness :
    ∃ d, (handle defaultConfig 7 "p1" (.createPost c4body)
        { posts := [], users := [], op_log := [] }).2.op_log =
      [] ++ [{ operation_type := "insert", collection := "posts", document_id := "p1",
               data := d, timestamp := 7, synced_to := [],
               region_origin := "north_america" }] :=
  (C4_success_appends_one_entry defaultConfig 7 "p1" (.createPost c4body)
    { posts := [], users := [], op_log := [] }).1 (by decide)

end MeshNetwork
